import Mathlib

/-!
Verification of the in-process rate limiter and IP blocker of
`backend/app/utils/rate_limiter.py` (classes `RateLimiterStore`, `RateLimiter`,
`IPBlocker`).

Modelling conventions:
* Wall-clock time is modelled as `Int` (Unix seconds).  Each call samples the
  clock once; the sampled value is passed as an explicit `now` argument.
* The bucket store (`RateLimiterStore.buckets`, a Python dict) is modelled as a
  function `String → Option Bucket`; a missing key is `none` (the empty dict the
  Python `get` returns is falsy, so it behaves exactly like "no bucket").
* Fallible store access is modelled with `Except`: `is_allowed_with` receives the
  outcome of the store read, and the `.error` case is the `except` branch of
  `RateLimiter.is_allowed`.
* Token counts are `Int` (Python ints; `limit - 1` can be negative when
  `limit = 0`), violation counts are `Nat` (they start at 1 and only increment).
-/

namespace RateLimiterPy

/-- Python `Bucket`: the per-key dict stored by `RateLimiter.is_allowed`
(`tokens`, `last_refill`, `reset_time`). -/
structure Bucket where
  tokens : Int
  last_refill : Int
  reset_time : Int
  deriving Repr, DecidableEq

/-- The dict returned by `RateLimiter.is_allowed`
(`allowed`, `remaining`, `reset_time`). -/
structure Decision where
  allowed : Bool
  remaining : Int
  reset_time : Int
  deriving Repr, DecidableEq

/-- Python `RateLimiterStore.buckets`: a dict from bucket keys to buckets. -/
def Store : Type := String → Option Bucket

/-- A freshly constructed `RateLimiterStore` (empty `defaultdict`). -/
def emptyStore : Store := fun _ => none

/-- Python `RateLimiterStore.get_bucket`: `self.buckets.get(key, {})`. -/
def get_bucket (s : Store) (k : String) : Option Bucket := s k

/-- Python `RateLimiterStore._cleanup_expired`: delete every bucket whose
`reset_time` is strictly below the current time. -/
def cleanup_expired (now : Int) (s : Store) : Store := fun k =>
  match s k with
  | some b => if b.reset_time < now then none else some b
  | none => none

/-- Python `RateLimiterStore.set_bucket`: write the bucket, then run the inline
expiry sweep.  (The Python method also takes the unused `window` argument.) -/
def set_bucket (s : Store) (k : String) (b : Bucket) (now : Int) : Store :=
  cleanup_expired now (fun q => if q = k then some b else s q)

/-- The bucket key: the string `rate_limit:` ++ key ++ `:` ++ identifier, where a
missing identifier is replaced by the sentinel `anonymous`. -/
def bucket_key (key : String) (identifier : Option String) : String :=
  "rate_limit:" ++ key ++ ":" ++ identifier.getD "anonymous"

/-- The bucket written by the `try` block of `RateLimiter.is_allowed`:
reset when the bucket is missing or `now > reset_time`, otherwise consume
one token, floored at 0. -/
def next_bucket (now limit window : Int) (b? : Option Bucket) : Bucket :=
  match b? with
  | some b =>
    if now > b.reset_time then
      { tokens := limit - 1, last_refill := now, reset_time := now + window }
    else
      { b with tokens := max 0 (b.tokens - 1) }
  | none => { tokens := limit - 1, last_refill := now, reset_time := now + window }

/-- Python `RateLimiter.is_allowed` with the outcome of the store read made explicit:
`storeRead` is the result of `self.store.get_bucket(bucket_key)`, and the
`.error` case is the `except` branch, which returns the fail-open decision
with `allowed = true`, `remaining = limit`, `reset_time = now + window` and leaves
the store untouched. -/
def is_allowed_with (storeRead : Except Unit (Option Bucket)) (now limit window : Int)
    (key : String) (identifier : Option String) (s : Store) : Decision × Store :=
  match storeRead with
  | .error _ => ({ allowed := true, remaining := limit, reset_time := now + window }, s)
  | .ok b? =>
    let b := next_bucket now limit window b?
    ({ allowed := decide (b.tokens ≥ 0), remaining := max 0 b.tokens,
       reset_time := b.reset_time },
     set_bucket s (bucket_key key identifier) b now)

/-- Python `RateLimiter.is_allowed` when the store read succeeds. -/
def is_allowed (now limit window : Int) (key : String) (identifier : Option String)
    (s : Store) : Decision × Store :=
  is_allowed_with (.ok (get_bucket s (bucket_key key identifier))) now limit window
    key identifier s

/-- One entry of `RateLimiter.default_limits`. -/
structure PolicyLimits where
  requests : Int
  window : Int
  deriving Repr, DecidableEq

/-- Lookup of the policy key in `default_limits`, falling back to the `default`
entry when the key is unknown. -/
def default_limits (key : String) : PolicyLimits :=
  if key = "default" then { requests := 1000, window := 60 }
  else if key = "auth" then { requests := 100, window := 60 }
  else if key = "api" then { requests := 10000, window := 3600 }
  else { requests := 1000, window := 60 }

/-- Python `RateLimiter.check_rate_limit`: resolve the identifier (provided one, else
the client IP), resolve the policy limits with fallback to the `default` policy, and
delegate to `is_allowed`.  The logging branch has no effect on state/result. -/
def check_rate_limit (now : Int) (client_ip : String) (key : String)
    (identifier : Option String) (s : Store) : Decision × Store :=
  let request_identifier := identifier.getD client_ip
  let limits := default_limits key
  is_allowed now limits.requests limits.window key (some request_identifier) s

/-- A sequence of `is_allowed` calls on a fixed `(key, identifier)`;
each call supplies its own `(now, limit, window)`. -/
def run_is_allowed (key : String) (identifier : Option String)
    (calls : List (Int × Int × Int)) (s : Store) : List Decision × Store :=
  match calls with
  | [] => ([], s)
  | (now, limit, window) :: rest =>
    let p := is_allowed now limit window key identifier s
    let q := run_is_allowed key identifier rest p.2
    (p.1 :: q.1, q.2)

/-- A sequence of `check_rate_limit` calls with a fixed client IP, policy key
and identifier, one call per timestamp. -/
def run_check_rate_limit (client_ip : String) (key : String) (identifier : Option String)
    (times : List Int) (s : Store) : List Decision × Store :=
  match times with
  | [] => ([], s)
  | now :: rest =>
    let p := check_rate_limit now client_ip key identifier s
    let q := run_check_rate_limit client_ip key identifier rest p.2
    (p.1 :: q.1, q.2)

/-- One value of the `IPBlocker.violations` dict: a `count` and an `expire_time`. -/
structure ViolationRecord where
  count : Nat
  expire_time : Int
  deriving Repr, DecidableEq

/-- The state of an `IPBlocker`: the `violations` and `blocked_ips` dicts
(`violation_threshold` and `block_duration` are the constants below). -/
structure BlockerState where
  violations : String → Option ViolationRecord
  blocked_ips : String → Option Int

/-- Python `IPBlocker.violation_threshold` (set in `__init__`). -/
def violation_threshold : Nat := 10

/-- Python `IPBlocker.block_duration` in seconds (set in `__init__`). -/
def block_duration : Int := 3600

/-- A freshly constructed `IPBlocker`: both dicts empty. -/
def emptyBlocker : BlockerState :=
  { violations := fun _ => none, blocked_ips := fun _ => none }

/-- Python `del self.violations[ip]` (no-op when absent). -/
def eraseViolation (s : BlockerState) (ip : String) : BlockerState :=
  { s with violations := fun q => if q = ip then none else s.violations q }

/-- Python `self.violations[ip] = v`. -/
def setViolation (s : BlockerState) (ip : String) (v : ViolationRecord) : BlockerState :=
  { s with violations := fun q => if q = ip then some v else s.violations q }

/-- Python `del self.blocked_ips[ip]` (no-op when absent). -/
def eraseBlock (s : BlockerState) (ip : String) : BlockerState :=
  { s with blocked_ips := fun q => if q = ip then none else s.blocked_ips q }

/-- Python `self.blocked_ips[ip] = expire`. -/
def setBlock (s : BlockerState) (ip : String) (expire : Int) : BlockerState :=
  { s with blocked_ips := fun q => if q = ip then some expire else s.blocked_ips q }

/-- The lazy-expiry step of `IPBlocker._is_blocked`: delete the violation
record for `ip` when its `expire_time` has passed (`expire_time <= now`). -/
def expire_violation (ip : String) (now : Int) (s : BlockerState) : BlockerState :=
  match s.violations ip with
  | some v => if v.expire_time ≤ now then eraseViolation s ip else s
  | none => s

/-- Python `IPBlocker._is_blocked`: report an unexpired block immediately; otherwise
drop an expired block, drop an expired violation record, and report not
blocked.  Returns the result together with the (lazily cleaned) state. -/
def is_blocked_aux (ip : String) (now : Int) (s : BlockerState) : Bool × BlockerState :=
  match s.blocked_ips ip with
  | some expire =>
    if expire > now then (true, s)
    else (false, expire_violation ip now (eraseBlock s ip))
  | none => (false, expire_violation ip now s)

/-- Python `IPBlocker.is_blocked` (the public method; the lock is a no-op in this
single-operation model). -/
def is_blocked (ip : String) (now : Int) (s : BlockerState) : Bool × BlockerState :=
  is_blocked_aux ip now s

/-- Python `IPBlocker.record_violation`: short-circuit on an existing block, otherwise
create or increment the violation record (creation sets
`expire_time = now + block_duration`; increment leaves `expire_time` alone),
then promote to a block and delete the record when the count reaches
`violation_threshold`. -/
def record_violation (ip : String) (now : Int) (s : BlockerState) : Bool × BlockerState :=
  let p := is_blocked_aux ip now s
  if p.1 then (true, p.2)
  else
    let s1 := p.2
    let nextRec : ViolationRecord :=
      match s1.violations ip with
      | none => { count := 1, expire_time := now + block_duration }
      | some v => { count := v.count + 1, expire_time := v.expire_time }
    let s2 := setViolation s1 ip nextRec
    if violation_threshold ≤ nextRec.count then
      (true, eraseViolation (setBlock s2 ip (now + block_duration)) ip)
    else
      (false, s2)

/-- Python `IPBlocker.unblock_ip`: unconditionally delete both the block and the
violation record, log, and return `True`. -/
def unblock_ip (ip : String) (s : BlockerState) : Bool × BlockerState :=
  (true, eraseViolation (eraseBlock s ip) ip)

/-- A sequence of `record_violation` calls for a fixed address, one per
timestamp. -/
def run_record_violation (ip : String) (times : List Int) (s : BlockerState) :
    List Bool × BlockerState :=
  match times with
  | [] => ([], s)
  | now :: rest =>
    let p := record_violation ip now s
    let q := run_record_violation ip rest p.2
    (p.1 :: q.1, q.2)

/-- One public `IPBlocker` operation, with the time at which it is called. -/
inductive BlockerOp where
  | recordViolation (ip : String) (now : Int)
  | isBlocked (ip : String) (now : Int)
  | unblockIp (ip : String)
  deriving Repr

/-- Apply one public operation to the blocker state. -/
def applyOp (op : BlockerOp) (s : BlockerState) : BlockerState :=
  match op with
  | .recordViolation ip now => (record_violation ip now s).2
  | .isBlocked ip now => (is_blocked ip now s).2
  | .unblockIp ip => (unblock_ip ip s).2

/-- Run a sequence of public operations from a given state. -/
def runOps (ops : List BlockerOp) (s : BlockerState) : BlockerState :=
  match ops with
  | [] => s
  | op :: rest => runOps rest (applyOp op s)

/-- Mutual exclusion of the two tables: no address has both a violation
record and a block record. -/
def exclusive (s : BlockerState) : Prop :=
  ∀ ip : String, s.violations ip = none ∨ s.blocked_ips ip = none

/-- The blocker state for `ip` after `k ≥ 1` violations all recorded in the
half-open interval `[t, t + block_duration)`: below the threshold a violation
record with count `k` anchored at the first call time `t`; at or above it, no
violation record and a block that outlives `t + block_duration`. -/
def violationPhase (ip : String) (t : Int) (k : Nat) (s : BlockerState) : Prop :=
  if k < violation_threshold then
    s.violations ip = some { count := k, expire_time := t + block_duration } ∧
      s.blocked_ips ip = none
  else
    s.violations ip = none ∧
      ∃ e, s.blocked_ips ip = some e ∧ t + block_duration ≤ e

/-! ### Claim C2: the `except` branch fails open -/

/-- Claim C2: for every call to `is_allowed` in which the underlying store
operation raises, the exception does not propagate and the result is
`allowed = true`, `remaining = limit`, `reset_time = now + window` (and the
store is untouched). -/
theorem c2_store_error_fails_open (now limit window : Int) (key : String)
    (identifier : Option String) (s : Store) :
    is_allowed_with (.error ()) now limit window key identifier s =
      ({ allowed := true, remaining := limit, reset_time := now + window }, s) := rfl

/-! ### Claim C9: consuming a token is a frame on the rest of the bucket -/

/-- Claim C9: when a bucket exists for the key and `now ≤ reset_time`, the call
only rewrites the `tokens` field — `last_refill` and `reset_time` are stored
unchanged — and the returned `reset_time` is the value stored before the call. -/
theorem c9_consume_preserves_frame (now limit window : Int) (key : String)
    (identifier : Option String) (s : Store) (b : Bucket)
    (hb : s (bucket_key key identifier) = some b)
    (ht : now ≤ b.reset_time) :
    (is_allowed now limit window key identifier s).2 (bucket_key key identifier) =
        some { tokens := max 0 (b.tokens - 1), last_refill := b.last_refill,
               reset_time := b.reset_time } ∧
      (is_allowed now limit window key identifier s).1.reset_time = b.reset_time := by
  unfold is_allowed is_allowed_with get_bucket next_bucket set_bucket cleanup_expired
  rw [hb]
  have h1 : ¬ now > b.reset_time := by omega
  have h2 : ¬ b.reset_time < now := by omega
  simp [h1, h2]

/-- Witness for C9 at a concrete store: a bucket `⟨5, 0, 100⟩` under the
default key, consumed at time 50 with limit 10, window 60. -/
theorem c9_consume_preserves_frame_witness :
    ((fun k => if k = bucket_key "default" (some "x") then
        some { tokens := 5, last_refill := 0, reset_time := 100 } else none) :
          Store) (bucket_key "default" (some "x")) =
        some { tokens := 5, last_refill := 0, reset_time := 100 } ∧
      (50 : Int) ≤ 100 ∧
      ((is_allowed 50 10 60 "default" (some "x")
          (fun k => if k = bucket_key "default" (some "x") then
            some { tokens := 5, last_refill := 0, reset_time := 100 } else none)).2
            (bucket_key "default" (some "x")) =
          some { tokens := max 0 (5 - 1), last_refill := 0, reset_time := 100 } ∧
        (is_allowed 50 10 60 "default" (some "x")
          (fun k => if k = bucket_key "default" (some "x") then
            some { tokens := 5, last_refill := 0, reset_time := 100 } else none)).1.reset_time
          = 100) :=
  ⟨by decide, by decide,
    c9_consume_preserves_frame 50 10 60 "default" (some "x") _
      { tokens := 5, last_refill := 0, reset_time := 100 } (by decide) (by decide)⟩

/-! ### Claim C6: `unblock_ip` is a total reset for the address -/

/-- Claim C6: from any prior state, `unblock_ip` returns `true`, an immediate
`is_blocked` returns `false`, and a subsequent `record_violation` creates a
fresh violation record with count 1 (expiring `block_duration` after that
call), not resuming from the previous count. -/
theorem c6_unblock_resets_address (s : BlockerState) (ip : String) (t1 t2 : Int) :
    (unblock_ip ip s).1 = true ∧
      (is_blocked ip t1 (unblock_ip ip s).2).1 = false ∧
      (record_violation ip t2 (is_blocked ip t1 (unblock_ip ip s).2).2).1 = false ∧
      (record_violation ip t2 (is_blocked ip t1 (unblock_ip ip s).2).2).2.violations ip =
        some { count := 1, expire_time := t2 + block_duration } := by
  refine ⟨rfl, ?_, ?_, ?_⟩ <;>
    simp [unblock_ip, is_blocked, is_blocked_aux, expire_violation, record_violation,
      eraseViolation, eraseBlock, setViolation, violation_threshold]

/-! ### Claim C10: a sub-threshold repeat violation only bumps the count -/

/-- Claim C10: for an address with an unexpired violation record (and no block
record), a `record_violation` call that stays below the threshold returns
`false` and rewrites only `count`; `expire_time` keeps the value set by the
violation that created the record. -/
theorem c10_increment_keeps_expire_time (s : BlockerState) (ip : String) (now : Int)
    (v : ViolationRecord)
    (hblock : s.blocked_ips ip = none)
    (hv : s.violations ip = some v)
    (hlive : now < v.expire_time)
    (hth : v.count + 1 < violation_threshold) :
    (record_violation ip now s).1 = false ∧
      (record_violation ip now s).2.violations ip =
        some { count := v.count + 1, expire_time := v.expire_time } := by
  unfold record_violation is_blocked_aux expire_violation
  rw [hblock, hv]
  have h1 : ¬ v.expire_time ≤ now := by omega
  have h2 : ¬ violation_threshold ≤ v.count + 1 := by omega
  simp [h1, hv, h2, setViolation]

/-- Witness for C10: the address `"a"` has record `⟨3, 100⟩`, no block, and a
violation recorded at time 50 yields `false` and the record `⟨4, 100⟩`. -/
theorem c10_increment_keeps_expire_time_witness :
    (({ violations := fun q => if q = "a" then some { count := 3, expire_time := 100 } else none,
        blocked_ips := fun _ => none } : BlockerState).blocked_ips "a" = none) ∧
      (({ violations := fun q => if q = "a" then some { count := 3, expire_time := 100 } else none,
          blocked_ips := fun _ => none } : BlockerState).violations "a" =
        some { count := 3, expire_time := 100 }) ∧
      (50 : Int) < 100 ∧ 3 + 1 < violation_threshold ∧
      ((record_violation "a" 50
          { violations := fun q => if q = "a" then some { count := 3, expire_time := 100 } else none,
            blocked_ips := fun _ => none }).1 = false ∧
        (record_violation "a" 50
          { violations := fun q => if q = "a" then some { count := 3, expire_time := 100 } else none,
            blocked_ips := fun _ => none }).2.violations "a" =
          some { count := 3 + 1, expire_time := 100 }) :=
  ⟨rfl, by decide, by decide, by decide,
    c10_increment_keeps_expire_time _ "a" 50 { count := 3, expire_time := 100 }
      rfl (by decide) (by decide) (by decide)⟩

/-! ### Claim C1: the over-limit request is NOT denied (code bug)

`is_allowed` floors the token count at 0 (`max(0, tokens - 1)`) before testing
`tokens >= 0`, so within a window the decision is `allowed = true` on every
call whenever `limit ≥ 1` — including the call after the limit is exhausted.  The
repository test `test_is_allowed_exceeds_limit` (limit 10, identifier `test_ip`)
asserts the 11th call returns `allowed is False`; the code returns `True`. -/

/-- Claim C1 (code-bug record): on the input of the repository test
`test_is_allowed_exceeds_limit` — 11 calls with limit 10, window 3600, key
`test`, identifier `test_ip`, all inside the window — the 11th call
returns `allowed = true` with `remaining = 0`, not the `allowed = false`
that the claim, the spec and the repository test require. -/
theorem c1_eleventh_call_still_allowed :
    (run_is_allowed "test" (some "test_ip") (List.replicate 11 (0, 10, 3600))
        emptyStore).1.getLast? =
      some { allowed := true, remaining := 0, reset_time := 3600 } := by decide

/-! ### Claim C5: expiry fully resets the bucket -/

/-- Claim C5 (counterexample to the unrestricted statement): with `limit = 0`
the "fresh" bucket holds `-1` tokens, so the reset call returns
`allowed = false` (not `true`); and with `window = -1` the fresh bucket is
swept away by the inline expiry sweep of `set_bucket`, so no bucket is stored
at all. -/
theorem c5_counterexample :
    ((is_allowed 11 0 5 "default" (some "x")
        (fun k => if k = bucket_key "default" (some "x") then
          some { tokens := 0, last_refill := 0, reset_time := 10 } else none)).1.allowed
      = false) ∧
      ((is_allowed 11 1 (-1) "default" (some "x")
          (fun k => if k = bucket_key "default" (some "x") then
            some { tokens := 0, last_refill := 0, reset_time := 10 } else none)).2
          (bucket_key "default" (some "x")) = none) := by decide

/-- Claim C5 (amended): for `limit ≥ 1` and `window ≥ 0`, a call on an expired
bucket (`reset_time < now`) replaces it with a fresh bucket
`⟨limit - 1, now, now + window⟩` — regardless of the old token count — and
returns `allowed = true`, `remaining = limit - 1`, `reset_time = now + window`. -/
theorem c5_expiry_full_reset (now limit window : Int) (key : String)
    (identifier : Option String) (s : Store) (b : Bucket)
    (hb : s (bucket_key key identifier) = some b)
    (ht : b.reset_time < now)
    (hL : 1 ≤ limit) (hW : 0 ≤ window) :
    (is_allowed now limit window key identifier s).2 (bucket_key key identifier) =
        some { tokens := limit - 1, last_refill := now, reset_time := now + window } ∧
      (is_allowed now limit window key identifier s).1 =
        { allowed := true, remaining := limit - 1, reset_time := now + window } := by
  unfold is_allowed is_allowed_with get_bucket next_bucket set_bucket cleanup_expired
  rw [hb]
  have h1 : now > b.reset_time := by omega
  have h2 : ¬ now + window < now := by omega
  have h3 : (0 : Int) ≤ limit - 1 := by omega
  simp [h1, h2, h3, max_eq_right h3]

/-- Witness for the amended C5: an exhausted bucket `⟨0, 0, 10⟩` hit at time 11
with limit 10, window 60 is replaced by `⟨9, 11, 71⟩` and the call is allowed
with `remaining = 9`. -/
theorem c5_expiry_full_reset_witness :
    ((fun k => if k = bucket_key "default" (some "x") then
        some { tokens := 0, last_refill := 0, reset_time := 10 } else none) :
          Store) (bucket_key "default" (some "x")) =
        some { tokens := 0, last_refill := 0, reset_time := 10 } ∧
      (10 : Int) < 11 ∧ (1 : Int) ≤ 10 ∧ (0 : Int) ≤ 60 ∧
      ((is_allowed 11 10 60 "default" (some "x")
          (fun k => if k = bucket_key "default" (some "x") then
            some { tokens := 0, last_refill := 0, reset_time := 10 } else none)).2
          (bucket_key "default" (some "x")) =
          some { tokens := 10 - 1, last_refill := 11, reset_time := 11 + 60 } ∧
        (is_allowed 11 10 60 "default" (some "x")
          (fun k => if k = bucket_key "default" (some "x") then
            some { tokens := 0, last_refill := 0, reset_time := 10 } else none)).1 =
          { allowed := true, remaining := 10 - 1, reset_time := 11 + 60 }) :=
  ⟨by decide, by decide, by decide, by decide,
    c5_expiry_full_reset 11 10 60 "default" (some "x") _
      { tokens := 0, last_refill := 0, reset_time := 10 } (by decide) (by decide)
      (by decide) (by decide)⟩

/-! ### Claim C8: non-error `remaining` stays below the limit -/

/-- Token bound for the bucket written by one call: if the incoming bucket (when
present) holds at most `limit - 1` tokens and `limit ≥ 1`, so does the outgoing
bucket. -/
theorem next_bucket_tokens_le (now limit window : Int) (b? : Option Bucket)
    (hL : 1 ≤ limit)
    (h : ∀ b, b? = some b → b.tokens ≤ limit - 1) :
    (next_bucket now limit window b?).tokens ≤ limit - 1 := by
  cases b? with
  | none => simp [next_bucket]
  | some b =>
    have hb := h b rfl
    simp only [next_bucket]
    split
    · simp
    · simp only []
      omega

/-- Reading back the key just written by `set_bucket`: the bucket survives
exactly when the inline sweep does not consider it expired. -/
theorem set_bucket_self (s : Store) (k : String) (b : Bucket) (now : Int) :
    set_bucket s k b now k = if b.reset_time < now then none else some b := by
  unfold set_bucket cleanup_expired
  simp

/-- One `is_allowed` call keeps both the returned `remaining` and the stored
token count at or below `limit - 1`, provided the bucket at the key (when present)
already satisfies the bound. -/
theorem is_allowed_remaining_le (now limit window : Int) (key : String)
    (identifier : Option String) (s : Store)
    (hL : 1 ≤ limit)
    (hinv : ∀ b, s (bucket_key key identifier) = some b → b.tokens ≤ limit - 1) :
    (is_allowed now limit window key identifier s).1.remaining ≤ limit - 1 ∧
      ∀ b, (is_allowed now limit window key identifier s).2 (bucket_key key identifier) =
          some b → b.tokens ≤ limit - 1 := by
  have hnb := next_bucket_tokens_le now limit window (s (bucket_key key identifier)) hL hinv
  constructor
  · unfold is_allowed is_allowed_with get_bucket
    simp only []
    omega
  · intro b hb
    unfold is_allowed is_allowed_with get_bucket at hb
    simp only [] at hb
    rw [set_bucket_self] at hb
    split at hb
    · cases hb
    · cases hb
      exact hnb

/-- Sequence version: running any same-limit call sequence from a store whose
bucket at the key satisfies the token bound keeps every returned `remaining`
at or below `limit - 1`. -/
theorem run_is_allowed_remaining_le (key : String) (identifier : Option String)
    (limit : Int) (hL : 1 ≤ limit) :
    ∀ (calls : List (Int × Int × Int)) (s : Store),
      (∀ c ∈ calls, c.2.1 = limit) →
      (∀ b, s (bucket_key key identifier) = some b → b.tokens ≤ limit - 1) →
      ∀ d ∈ (run_is_allowed key identifier calls s).1, d.remaining ≤ limit - 1 := by
  intro calls
  induction calls with
  | nil => intro s _ _ d hd; simp [run_is_allowed] at hd
  | cons c rest ih =>
    intro s hc hinv d hd
    obtain ⟨now, l, w⟩ := c
    have hl : l = limit := hc _ (List.mem_cons_self _ _)
    subst hl
    have hstep := is_allowed_remaining_le now l w key identifier s hL hinv
    simp only [run_is_allowed, List.mem_cons] at hd
    rcases hd with hd | hd
    · subst hd; exact hstep.1
    · exact ih _ (fun c hc' => hc _ (List.mem_cons_of_mem _ hc')) hstep.2 d hd

/-- Claim C8 (counterexample to the unrestricted statement): mixing limits on
one key — a call with limit 3 followed by one with limit 1 — makes the second,
non-error return carry `remaining = 1`, which equals the limit of its call and
exceeds `limit - 1 = 0`; and a single call with limit 0 returns
`remaining = 0 = limit` on the non-error path. -/
theorem c8_counterexample :
    ((run_is_allowed "default" (some "x") [(0, 3, 100), (1, 1, 100)] emptyStore).1.getLast? =
        some { allowed := true, remaining := 1, reset_time := 100 }) ∧
      ((is_allowed 0 0 100 "default" (some "x") emptyStore).1 =
        { allowed := false, remaining := 0, reset_time := 100 }) := by decide

/-- Claim C8 (amended): when every call on the key uses one fixed limit
`L ≥ 1` and the key starts with no bucket, every non-error return satisfies
`remaining ≤ L - 1`; a return with `remaining = L` can then only come from the
fail-open error path. -/
theorem c8_remaining_below_limit (key : String) (identifier : Option String)
    (limit : Int) (calls : List (Int × Int × Int)) (s : Store)
    (hL : 1 ≤ limit)
    (hs : s (bucket_key key identifier) = none)
    (hc : ∀ c ∈ calls, c.2.1 = limit) :
    ∀ d ∈ (run_is_allowed key identifier calls s).1, d.remaining ≤ limit - 1 :=
  run_is_allowed_remaining_le key identifier limit hL calls s hc
    (fun b hb => by rw [hs] at hb; cases hb)

/-- Witness for the amended C8: three calls with limit 2 from the empty store
all return `remaining ≤ 1`. -/
theorem c8_remaining_below_limit_witness :
    (1 : Int) ≤ 2 ∧
      (emptyStore (bucket_key "k" (some "i")) = none) ∧
      (∀ c ∈ [((0 : Int), (2 : Int), (10 : Int)), (1, 2, 10), (2, 2, 10)], c.2.1 = (2 : Int)) ∧
      ∀ d ∈ (run_is_allowed "k" (some "i") [(0, 2, 10), (1, 2, 10), (2, 2, 10)]
          emptyStore).1, d.remaining ≤ 2 - 1 :=
  ⟨by decide, rfl, by decide,
    c8_remaining_below_limit "k" (some "i") 2 [(0, 2, 10), (1, 2, 10), (2, 2, 10)]
      emptyStore (by decide) rfl (by decide)⟩

/-! ### Claim C7: unknown policy names fall back to the `default` policy -/

/-- An unknown policy name resolves to the limits of the `default` policy. -/
theorem default_limits_fallback (p : String)
    (h1 : p ≠ "default") (h2 : p ≠ "auth") (h3 : p ≠ "api") :
    default_limits p = default_limits "default" := by
  simp [default_limits, h1, h2, h3]

/-- Two `is_allowed` calls with the same parameters, on keys whose buckets
agree, return the same decision and leave agreeing buckets at those keys. -/
theorem is_allowed_key_congr (now limit window : Int) (k1 k2 : String)
    (id1 id2 : Option String) (s1 s2 : Store)
    (h : s1 (bucket_key k1 id1) = s2 (bucket_key k2 id2)) :
    (is_allowed now limit window k1 id1 s1).1 = (is_allowed now limit window k2 id2 s2).1 ∧
      (is_allowed now limit window k1 id1 s1).2 (bucket_key k1 id1) =
        (is_allowed now limit window k2 id2 s2).2 (bucket_key k2 id2) := by
  constructor
  · unfold is_allowed is_allowed_with get_bucket
    rw [h]
  · unfold is_allowed is_allowed_with get_bucket
    simp only []
    rw [set_bucket_self, set_bucket_self, h]

/-- Sequence version: runs of `check_rate_limit` under two policy keys whose
resolved limits coincide produce identical decision lists whenever the buckets
at their respective keys agree. -/
theorem run_check_rate_limit_congr (client_ip : String) (k1 k2 : String)
    (identifier : Option String)
    (hlim : default_limits k1 = default_limits k2) :
    ∀ (times : List Int) (s1 s2 : Store),
      s1 (bucket_key k1 (some (identifier.getD client_ip))) =
        s2 (bucket_key k2 (some (identifier.getD client_ip))) →
      (run_check_rate_limit client_ip k1 identifier times s1).1 =
        (run_check_rate_limit client_ip k2 identifier times s2).1 := by
  intro times
  induction times with
  | nil => intro s1 s2 _; rfl
  | cons t rest ih =>
    intro s1 s2 h
    have hstep := is_allowed_key_congr t (default_limits k1).requests
      (default_limits k1).window k1 k2 (some (identifier.getD client_ip))
      (some (identifier.getD client_ip)) s1 s2 h
    simp only [run_check_rate_limit, check_rate_limit]
    rw [hlim] at hstep ⊢
    rw [hstep.1, ih _ _ hstep.2]

/-- Claim C7: for a policy name that is none of `default`, `auth`, `api`, and a
fixed identifier, any sequence of `check_rate_limit` calls from the empty
store returns exactly the decisions of the same sequence under the policy
name `default`. -/
theorem c7_unknown_policy_equals_default (p : String) (client_ip : String)
    (identifier : Option String) (times : List Int)
    (h1 : p ≠ "default") (h2 : p ≠ "auth") (h3 : p ≠ "api") :
    (run_check_rate_limit client_ip p identifier times emptyStore).1 =
      (run_check_rate_limit client_ip "default" identifier times emptyStore).1 :=
  run_check_rate_limit_congr client_ip p "default" identifier
    (default_limits_fallback p h1 h2 h3) times emptyStore emptyStore rfl

/-- Witness for C7: three calls under `nonexistent_policy` versus `default`,
identifier `x`, from the empty store. -/
theorem c7_unknown_policy_equals_default_witness :
    ("nonexistent_policy" ≠ "default" ∧ "nonexistent_policy" ≠ "auth" ∧
        "nonexistent_policy" ≠ "api") ∧
      (run_check_rate_limit "203.0.113.9" "nonexistent_policy" (some "x") [0, 1, 2]
          emptyStore).1 =
        (run_check_rate_limit "203.0.113.9" "default" (some "x") [0, 1, 2]
          emptyStore).1 :=
  ⟨⟨by decide, by decide, by decide⟩,
    c7_unknown_policy_equals_default "nonexistent_policy" "203.0.113.9" (some "x")
      [0, 1, 2] (by decide) (by decide) (by decide)⟩

/-! ### Claim C3: the violation threshold promotes to a block -/

/-- Python `record_violation` on a currently blocked address short-circuits. -/
theorem record_violation_blocked (ip : String) (now : Int) (s : BlockerState) (e : Int)
    (hb : s.blocked_ips ip = some e) (he : e > now) :
    record_violation ip now s = (true, s) := by
  simp [record_violation, is_blocked_aux, hb, he]

/-- Python `record_violation` on an address with no record at all creates a count-1
record expiring `block_duration` later. -/
theorem record_violation_fresh (ip : String) (now : Int) (s : BlockerState)
    (hb : s.blocked_ips ip = none) (hv : s.violations ip = none) :
    record_violation ip now s =
      (false, setViolation s ip { count := 1, expire_time := now + block_duration }) := by
  simp [record_violation, is_blocked_aux, expire_violation, hb, hv, violation_threshold]

/-- Python `record_violation` on a live violation record bumps the count, keeping the
expiry, and promotes to a block exactly when the threshold is reached. -/
theorem record_violation_live (ip : String) (now : Int) (s : BlockerState)
    (v : ViolationRecord)
    (hb : s.blocked_ips ip = none) (hv : s.violations ip = some v)
    (hlive : now < v.expire_time) :
    record_violation ip now s =
      if violation_threshold ≤ v.count + 1 then
        (true, eraseViolation
          (setBlock (setViolation s ip { count := v.count + 1, expire_time := v.expire_time })
            ip (now + block_duration)) ip)
      else
        (false, setViolation s ip { count := v.count + 1, expire_time := v.expire_time }) := by
  have hne : ¬ (v.expire_time ≤ now) := by omega
  simp [record_violation, is_blocked_aux, expire_violation, hb, hv, hne]

/-- One step of the threshold run: a violation at time `x ∈ [t, t + duration)`
moves phase `k` to phase `k + 1` and returns `true` iff the new count reaches
the threshold. -/
theorem record_violation_phase_step (ip : String) (t x : Int) (k : Nat) (s : BlockerState)
    (hph : violationPhase ip t k s)
    (hx1 : t ≤ x) (hx2 : x < t + block_duration) :
    (record_violation ip x s).1 = decide (violation_threshold ≤ k + 1) ∧
      violationPhase ip t (k + 1) (record_violation ip x s).2 := by
  by_cases hth : k < violation_threshold
  · rw [violationPhase, if_pos hth] at hph
    obtain ⟨hv, hb⟩ := hph
    have hlive : x < ({ count := k, expire_time := t + block_duration } :
        ViolationRecord).expire_time := by simp; omega
    have hres := record_violation_live ip x s _ hb hv hlive
    by_cases hth2 : violation_threshold ≤ k + 1
    · rw [if_pos hth2] at hres
      rw [hres]
      refine ⟨by simp [hth2], ?_⟩
      have hk1 : ¬ (k + 1 < violation_threshold) := by omega
      rw [violationPhase, if_neg hk1]
      refine ⟨by simp [eraseViolation], x + block_duration, ?_, by omega⟩
      simp [eraseViolation, setBlock, setViolation]
    · rw [if_neg hth2] at hres
      rw [hres]
      refine ⟨by simp [hth2], ?_⟩
      have hk1 : k + 1 < violation_threshold := by omega
      rw [violationPhase, if_pos hk1]
      exact ⟨by simp [setViolation], by simp [setViolation, hb]⟩
  · rw [violationPhase, if_neg hth] at hph
    obtain ⟨hv, e, hb, he⟩ := hph
    have hgt : e > x := by omega
    rw [record_violation_blocked ip x s e hb hgt]
    have hth2 : violation_threshold ≤ k + 1 := by omega
    have hk1 : ¬ (k + 1 < violation_threshold) := by omega
    refine ⟨by simp [hth2], ?_⟩
    rw [violationPhase, if_neg hk1]
    exact ⟨hv, e, hb, he⟩

/-- Run version of the phase step: from phase `k`, a run of violations all in
`[t, t + duration)` returns `true` exactly on the calls whose cumulative count
reaches the threshold, and lands in phase `k + n`. -/
theorem run_record_violation_phase (ip : String) (t : Int) :
    ∀ (ts : List Int) (k : Nat) (s : BlockerState),
      (∀ x ∈ ts, t ≤ x ∧ x < t + block_duration) →
      violationPhase ip t k s →
      (run_record_violation ip ts s).1 =
          (List.range ts.length).map (fun i => decide (violation_threshold ≤ k + i + 1)) ∧
        violationPhase ip t (k + ts.length) (run_record_violation ip ts s).2 := by
  intro ts
  induction ts with
  | nil => intro k s _ hph; exact ⟨rfl, hph⟩
  | cons x rest ih =>
    intro k s hts hph
    have hx := hts x (List.mem_cons_self _ _)
    have hstep := record_violation_phase_step ip t x k s hph hx.1 hx.2
    have hrest := ih (k + 1) (record_violation ip x s).2
      (fun y hy => hts y (List.mem_cons_of_mem _ hy)) hstep.2
    constructor
    · simp only [run_record_violation, List.length_cons, List.range_succ_eq_map,
        List.map_cons, List.map_map]
      rw [hstep.1, hrest.1]
      refine congrArg₂ _ (by simp) ?_
      refine List.map_congr_left fun i _ => ?_
      simp only [Function.comp]
      exact decide_eq_decide.mpr (by omega)
    · have : k + 1 + rest.length = k + (rest.length + 1) := by omega
      rw [List.length_cons]
      rw [← this]
      exact hrest.2

/-- Claim C3: from the empty blocker state, violations for one address all
recorded within `block_duration` of the first return `false` for the first
`violation_threshold - 1` calls and `true` from the threshold-th call on; once
the threshold is hit the violation record is gone (so nothing is incremented
further) and a block record exists. -/
theorem c3_threshold_blocks (ip : String) (t : Int) (ts : List Int)
    (hts : ∀ x ∈ ts, t ≤ x ∧ x < t + block_duration) :
    (run_record_violation ip (t :: ts) emptyBlocker).1 =
        (List.range (ts.length + 1)).map (fun i => decide (violation_threshold ≤ i + 1)) ∧
      (violation_threshold ≤ ts.length + 1 →
        (run_record_violation ip (t :: ts) emptyBlocker).2.violations ip = none ∧
          ((run_record_violation ip (t :: ts) emptyBlocker).2.blocked_ips ip).isSome) := by
  have hfresh := record_violation_fresh ip t emptyBlocker rfl rfl
  have hph1 : violationPhase ip t 1 (record_violation ip t emptyBlocker).2 := by
    rw [hfresh]
    rw [violationPhase, if_pos (by simp [violation_threshold])]
    exact ⟨by simp [setViolation], by simp [setViolation, emptyBlocker]⟩
  have hrun := run_record_violation_phase ip t ts 1 (record_violation ip t emptyBlocker).2
    hts hph1
  constructor
  · simp only [run_record_violation]
    rw [hrun.1, hfresh]
    simp only [List.range_succ_eq_map, List.map_cons, List.map_map]
    refine congrArg₂ _ (by simp [violation_threshold]) ?_
    refine List.map_congr_left fun i _ => ?_
    simp only [Function.comp]
    exact decide_eq_decide.mpr (by omega)
  · intro hge
    have hph := hrun.2
    have hk1 : ¬ (1 + ts.length < violation_threshold) := by omega
    rw [violationPhase, if_neg hk1] at hph
    obtain ⟨hv, e, hb, _⟩ := hph
    simp only [run_record_violation]
    exact ⟨hv, by rw [hb]; rfl⟩

/-- Witness for C3: eleven violations for the address `10.0.0.1` at time 0 — the first
nine return `false`, the tenth and eleventh `true`, and afterwards the
violation record is gone while a block record exists. -/
theorem c3_threshold_blocks_witness :
    (∀ x ∈ List.replicate 10 (0 : Int), (0 : Int) ≤ x ∧ x < 0 + block_duration) ∧
      ((run_record_violation "10.0.0.1" ((0 : Int) :: List.replicate 10 0) emptyBlocker).1 =
          (List.range ((List.replicate 10 (0 : Int)).length + 1)).map
            (fun i => decide (violation_threshold ≤ i + 1)) ∧
        (violation_threshold ≤ (List.replicate 10 (0 : Int)).length + 1 →
          (run_record_violation "10.0.0.1" ((0 : Int) :: List.replicate 10 0)
              emptyBlocker).2.violations "10.0.0.1" = none ∧
            ((run_record_violation "10.0.0.1" ((0 : Int) :: List.replicate 10 0)
              emptyBlocker).2.blocked_ips "10.0.0.1").isSome)) :=
  ⟨by decide, c3_threshold_blocks "10.0.0.1" 0 (List.replicate 10 0) (by decide)⟩

/-! ### Claim C4: violation and block records are mutually exclusive -/

/-- Deleting a violation record preserves mutual exclusion. -/
theorem eraseViolation_exclusive (s : BlockerState) (ip : String) (h : exclusive s) :
    exclusive (eraseViolation s ip) := by
  intro q
  by_cases hq : q = ip
  · subst hq; left; simp [eraseViolation]
  · rcases h q with h' | h'
    · left; simpa [eraseViolation, hq] using h'
    · right; simpa [eraseViolation] using h'

/-- Deleting a block record preserves mutual exclusion. -/
theorem eraseBlock_exclusive (s : BlockerState) (ip : String) (h : exclusive s) :
    exclusive (eraseBlock s ip) := by
  intro q
  by_cases hq : q = ip
  · subst hq; right; simp [eraseBlock]
  · rcases h q with h' | h'
    · left; simpa [eraseBlock] using h'
    · right; simpa [eraseBlock, hq] using h'

/-- Writing a violation record for an unblocked address preserves mutual
exclusion. -/
theorem setViolation_exclusive (s : BlockerState) (ip : String) (v : ViolationRecord)
    (h : exclusive s) (hb : s.blocked_ips ip = none) :
    exclusive (setViolation s ip v) := by
  intro q
  by_cases hq : q = ip
  · subst hq; right; simpa [setViolation] using hb
  · rcases h q with h' | h'
    · left; simpa [setViolation, hq] using h'
    · right; simpa [setViolation] using h'

/-- Promotion — write the block, delete the violation record — preserves
mutual exclusion. -/
theorem promote_exclusive (s : BlockerState) (ip : String) (e : Int) (h : exclusive s) :
    exclusive (eraseViolation (setBlock s ip e) ip) := by
  intro q
  by_cases hq : q = ip
  · subst hq; left; simp [eraseViolation]
  · rcases h q with h' | h'
    · left; simpa [eraseViolation, setBlock, hq] using h'
    · right; simpa [eraseViolation, setBlock, hq] using h'

/-- Lazy violation expiry does not touch the block table. -/
theorem expire_violation_blocked_ips (ip : String) (now : Int) (s : BlockerState) :
    (expire_violation ip now s).blocked_ips = s.blocked_ips := by
  unfold expire_violation
  split
  · split <;> rfl
  · rfl

/-- Lazy violation expiry preserves mutual exclusion. -/
theorem expire_violation_exclusive (ip : String) (now : Int) (s : BlockerState)
    (h : exclusive s) : exclusive (expire_violation ip now s) := by
  unfold expire_violation
  split
  · split
    · exact eraseViolation_exclusive s ip h
    · exact h
  · exact h

/-- Python `_is_blocked` (which only deletes expired records) preserves mutual
exclusion. -/
theorem is_blocked_aux_exclusive (ip : String) (now : Int) (s : BlockerState)
    (h : exclusive s) : exclusive (is_blocked_aux ip now s).2 := by
  cases hb : s.blocked_ips ip with
  | some e =>
    by_cases he : e > now
    · simpa [is_blocked_aux, hb, he] using h
    · simp only [is_blocked_aux, hb, he, if_false]
      exact expire_violation_exclusive ip now _ (eraseBlock_exclusive s ip h)
  | none =>
    simp only [is_blocked_aux, hb]
    exact expire_violation_exclusive ip now s h

/-- When `_is_blocked` answers `false`, the address has no block record in the
resulting state. -/
theorem is_blocked_aux_false_blocked_none (ip : String) (now : Int) (s : BlockerState)
    (h : (is_blocked_aux ip now s).1 = false) :
    (is_blocked_aux ip now s).2.blocked_ips ip = none := by
  cases hb : s.blocked_ips ip with
  | some e =>
    by_cases he : e > now
    · simp [is_blocked_aux, hb, he] at h
    · simp only [is_blocked_aux, hb, he, if_false]
      rw [expire_violation_blocked_ips]
      simp [eraseBlock]
  | none =>
    simp only [is_blocked_aux, hb]
    rw [expire_violation_blocked_ips]
    exact hb

/-- Python `record_violation` preserves mutual exclusion. -/
theorem record_violation_exclusive (ip : String) (now : Int) (s : BlockerState)
    (h : exclusive s) : exclusive (record_violation ip now s).2 := by
  have haux := is_blocked_aux_exclusive ip now s h
  by_cases hp : (is_blocked_aux ip now s).1 = true
  · simp only [record_violation, hp, if_true]
    exact haux
  · have hbn := is_blocked_aux_false_blocked_none ip now s (by simpa using hp)
    simp only [record_violation]
    rw [if_neg hp]
    split
    · exact promote_exclusive _ _ _ (setViolation_exclusive _ _ _ haux hbn)
    · exact setViolation_exclusive _ _ _ haux hbn

/-- Python `unblock_ip` preserves mutual exclusion. -/
theorem unblock_ip_exclusive (ip : String) (s : BlockerState) (h : exclusive s) :
    exclusive (unblock_ip ip s).2 :=
  eraseViolation_exclusive _ _ (eraseBlock_exclusive _ _ h)

/-- Every public operation preserves mutual exclusion. -/
theorem applyOp_exclusive (op : BlockerOp) (s : BlockerState) (h : exclusive s) :
    exclusive (applyOp op s) := by
  cases op with
  | recordViolation ip now => exact record_violation_exclusive ip now s h
  | isBlocked ip now => exact is_blocked_aux_exclusive ip now s h
  | unblockIp ip => exact unblock_ip_exclusive ip s h

/-- Runs of public operations preserve mutual exclusion. -/
theorem runOps_exclusive (ops : List BlockerOp) (s : BlockerState) (h : exclusive s) :
    exclusive (runOps ops s) := by
  induction ops generalizing s with
  | nil => exact h
  | cons op rest ih => exact ih _ (applyOp_exclusive op s h)

/-- Claim C4: after any sequence of public `IPBlocker` operations from the
empty state, no address simultaneously has a violation record and a block
record.  Since the sequence is arbitrary, this holds at every point between
operations. -/
theorem c4_mutual_exclusion (ops : List BlockerOp) :
    exclusive (runOps ops emptyBlocker) :=
  runOps_exclusive ops emptyBlocker (fun _ => Or.inl rfl)

end RateLimiterPy
